import Mathlib

/-!
# Storage factory of the OAuth API server

A shallow embedding of `pkg/oauth/apiserver/apiserver.go`: the lazily built,
once-guarded REST storage set (`V1RESTStorage`, `newV1RESTStorage`), the
completion of a server configuration (`Complete`) and server construction
(`New`).

Pointers are addresses into an explicit `Heap`; every function that touches
memory takes the heap and returns the heap it leaves.  The constructors of
other packages are fields of a `World`; each call to one of them is appended
to a list of `Event`s, so that what ran, in which order and with which
arguments can be stated.  A result of `none` stands for a Go panic (a nil
pointer dereference).  Execution is sequential: the mutex inside `sync.Once`
is not represented.
-/

namespace apiserver

/-! ## Values of other packages -/

/-- Go `error` value that is not nil, identified by the text of `Error()`. -/
structure GoError where
  msg : String
deriving DecidableEq, Repr

/-- Model of `fmt.Errorf(format, err)` for a format that ends in a single `%v`
verb: `lead` is the format without the verb, the result's text is `lead`
followed by `err.Error()`. -/
def fmtErrorf (lead : String) (err : GoError) : GoError :=
  ⟨lead ++ err.msg⟩

/-- The type `oauthapiv1.GrantHandlerType`, a named string type. -/
structure GrantHandlerType where
  val : String
deriving DecidableEq, Repr

/-- Constant `oauthapiv1.GrantHandlerAuto` of `github.com/openshift/api/oauth/v1`. -/
def GrantHandlerAuto : GrantHandlerType := ⟨"auto"⟩

/-- Constant `oauthapiv1.GrantHandlerPrompt` of `github.com/openshift/api/oauth/v1`. -/
def GrantHandlerPrompt : GrantHandlerType := ⟨"prompt"⟩

/-- Constant `oauthapiv1.GrantHandlerDeny` of `github.com/openshift/api/oauth/v1`. -/
def GrantHandlerDeny : GrantHandlerType := ⟨"deny"⟩

/-- Interface value `generic.RESTOptionsGetter`. -/
structure RESTOptionsGetter where
  id : Nat
deriving DecidableEq, Repr

/-- Pointer `*restclient.Config`. -/
structure RestConfig where
  id : Nat
deriving DecidableEq, Repr

/-- Client `*oauthclient.OauthV1Client`. -/
structure OAuthV1Client where
  id : Nat
deriving DecidableEq, Repr

/-- Client `*routeclient.RouteV1Client`. -/
structure RouteV1Client where
  id : Nat
deriving DecidableEq, Repr

/-- Client `*corev1.CoreV1Client`. -/
structure CoreV1Client where
  id : Nat
deriving DecidableEq, Repr

/-- Result of `coreV1Client.Events(ns)`. -/
structure EventInterface where
  client : CoreV1Client
  ns : String
deriving DecidableEq, Repr

/-- Result of `oauthClient.OAuthClients()`. -/
structure OAuthClientInterface where
  client : OAuthV1Client
deriving DecidableEq, Repr

/-- The combined client getter built by
`oauthserviceaccountclient.NewServiceAccountOAuthClientGetter`: a record of the
six arguments it was handed, in the order of the call. -/
structure saOAuthClientGetter where
  saClient : CoreV1Client
  secretClient : CoreV1Client
  eventClient : EventInterface
  routeClient : RouteV1Client
  delegate : OAuthClientInterface
  grantMethod : GrantHandlerType
deriving DecidableEq, Repr

/-- Constructor `oauthserviceaccountclient.NewServiceAccountOAuthClientGetter`. -/
def NewServiceAccountOAuthClientGetter (saClient secretClient : CoreV1Client)
    (eventClient : EventInterface) (routeClient : RouteV1Client)
    (delegate : OAuthClientInterface) (grantMethod : GrantHandlerType) : saOAuthClientGetter :=
  ⟨saClient, secretClient, eventClient, routeClient, delegate, grantMethod⟩

/-- Registry `*clientetcd.REST`. -/
structure ClientREST where
  id : Nat
deriving DecidableEq, Repr

/-- Registry `*authorizetokenetcd.REST`. -/
structure AuthorizeTokenREST where
  id : Nat
deriving DecidableEq, Repr

/-- Registry `*accesstokenetcd.REST`. -/
structure AccessTokenREST where
  id : Nat
deriving DecidableEq, Repr

/-- Registry `*clientauthetcd.REST`. -/
structure ClientAuthorizationREST where
  id : Nat
deriving DecidableEq, Repr

/-- Interface value `rest.Storage`: one of the four registries. -/
inductive Storage where
  | client (r : ClientREST)
  | authorizeToken (r : AuthorizeTokenREST)
  | accessToken (r : AccessTokenREST)
  | clientAuthorization (r : ClientAuthorizationREST)
deriving DecidableEq, Repr

/-- Contents of a Go `map[string]rest.Storage`: at most one entry per key. -/
structure StorageMap where
  entries : List (String × Storage)
deriving DecidableEq, Repr

/-- The map literal `map[string]rest.Storage{}`. -/
def StorageMap.empty : StorageMap := ⟨[]⟩

/-- Map read `m[k]`, `none` when the key is absent. -/
def StorageMap.get (m : StorageMap) (k : String) : Option Storage :=
  m.entries.lookup k

/-- Map assignment `m[k] = v`. -/
def StorageMap.set (m : StorageMap) (k : String) (v : Storage) : StorageMap :=
  ⟨(k, v) :: m.entries.filter (fun kv => kv.1 != k)⟩

/-- Address of a `map[string]rest.Storage` in the heap; a nil map is `none`
at the places that hold an `Option MapRef`. -/
abbrev MapRef := Nat

/-- The fields of `genericapiserver.CompletedConfig` read by this package. -/
structure GenericCompletedConfig where
  RESTOptionsGetter : RESTOptionsGetter
  LoopbackClientConfig : RestConfig
deriving DecidableEq, Repr

/-- The fields of `genericapiserver.RecommendedConfig` read by this package. -/
structure RecommendedConfig where
  RESTOptionsGetter : RESTOptionsGetter
  LoopbackClientConfig : RestConfig
  ClientConfig : RestConfig
deriving DecidableEq, Repr

/-- Value `genericapiserver.DelegationTarget`. -/
structure DelegationTarget where
  id : Nat
deriving DecidableEq, Repr

/-- Pointer `*genericapiserver.GenericAPIServer`. -/
structure GenericAPIServer where
  id : Nat
deriving DecidableEq, Repr

/-- The fields of `genericapiserver.APIGroupInfo` this package sets: the group
name it was made for and `VersionedResourcesStorageMap`, from version to the
storage map stored under it. -/
structure APIGroupInfo where
  GroupName : String
  VersionedResourcesStorageMap : List (String × Option MapRef)
deriving DecidableEq, Repr

/-- Constant `oauthapiv1.GroupName`. -/
def GroupName : String := "oauth.openshift.io"

/-- Constant `oauthapiv1.SchemeGroupVersion.Version`. -/
def SchemeGroupVersionVersion : String := "v1"

/-- Constructor `genericapiserver.NewDefaultAPIGroupInfo`: an empty
`VersionedResourcesStorageMap` for the group. -/
def NewDefaultAPIGroupInfo (group : String) : APIGroupInfo :=
  ⟨group, []⟩

/-! ## The data model of the package -/

/-- Sequential state of a `sync.Once`; the zero value has `done = false`. -/
structure Once where
  done : Bool
deriving DecidableEq, Repr

/-- Struct `ExtraConfig`. -/
structure ExtraConfig where
  ServiceAccountMethod : String
  makeV1Storage : Once
  v1Storage : Option MapRef
  v1StorageErr : Option GoError
deriving DecidableEq, Repr

/-- Struct `OAuthAPIServerConfig`; the pointee of `GenericConfig` is kept inline. -/
structure OAuthAPIServerConfig where
  GenericConfig : RecommendedConfig
  ExtraConfig : ExtraConfig
deriving DecidableEq, Repr

/-- Struct `OAuthAPIServer`. -/
structure OAuthAPIServer where
  GenericAPIServer : GenericAPIServer
deriving DecidableEq, Repr

/-- Struct `completedConfig`.  `ExtraConfig` is a pointer: the address of the
`OAuthAPIServerConfig` whose `ExtraConfig` field it points into. -/
structure completedConfig where
  GenericConfig : GenericCompletedConfig
  ExtraConfig : Nat
  kubeAPIServerClientConfig : RestConfig
deriving DecidableEq, Repr

/-- Memory: the `OAuthAPIServerConfig` objects and the storage maps, each
addressed by its index. -/
structure Heap where
  configs : List OAuthAPIServerConfig
  maps : List StorageMap
deriving DecidableEq, Repr

/-- Allocation of an empty map; the new map's address is the old number of maps. -/
def Heap.newMap (h : Heap) : MapRef × Heap :=
  (h.maps.length, ⟨h.configs, h.maps ++ [StorageMap.empty]⟩)

/-- Assignment `m[k] = v` through the map reference `r`. -/
def Heap.mapAssign (h : Heap) (r : MapRef) (k : String) (v : Storage) : Heap :=
  match h.maps[r]? with
  | none => h
  | some m => ⟨h.configs, h.maps.set r (m.set k v)⟩

/-- Write to the `ExtraConfig` at address `p`. -/
def Heap.setExtra (h : Heap) (p : Nat) (f : ExtraConfig → ExtraConfig) : Heap :=
  match h.configs[p]? with
  | none => h
  | some cfg => ⟨h.configs.set p ⟨cfg.GenericConfig, f cfg.ExtraConfig⟩, h.maps⟩

/-- Read of the `ExtraConfig` at address `p`; `none` for an invalid pointer. -/
def Heap.extra (h : Heap) (p : Nat) : Option ExtraConfig :=
  (h.configs[p]?).map (fun cfg => cfg.ExtraConfig)

/-! ## Calls into other packages -/

/-- The seven fallible sub-constructions of `newV1RESTStorage`. -/
inductive Step where
  | clientStorage
  | oauthClient
  | routeClient
  | coreClient
  | authorizeTokenStorage
  | accessTokenStorage
  | clientAuthorizationStorage
deriving DecidableEq, Repr

/-- One observable action: entry into `newV1RESTStorage`, or a call to a
constructor or method of another package with its arguments and the error it
returned (`none` for a nil error). -/
inductive Event where
  | enterNewV1RESTStorage
  | clientetcdNewREST (opts : RESTOptionsGetter) (err : Option GoError)
  | oauthclientNewForConfig (cfg : RestConfig) (err : Option GoError)
  | routeclientNewForConfig (cfg : RestConfig) (err : Option GoError)
  | corev1NewForConfig (cfg : RestConfig) (err : Option GoError)
  | authorizetokenetcdNewREST (opts : RESTOptionsGetter) (getter : saOAuthClientGetter)
      (err : Option GoError)
  | accesstokenetcdNewREST (opts : RESTOptionsGetter) (getter : saOAuthClientGetter)
      (err : Option GoError)
  | clientauthetcdNewREST (opts : RESTOptionsGetter) (getter : saOAuthClientGetter)
      (err : Option GoError)
  | genericNew (name : String) (target : DelegationTarget) (err : Option GoError)
  | InstallAPIGroup (server : GenericAPIServer) (info : APIGroupInfo) (err : Option GoError)
deriving DecidableEq, Repr

/-- The constructors and methods of other packages, as they answer at the time
of one call into this package. -/
structure World where
  clientetcdNewREST : RESTOptionsGetter → Except GoError ClientREST
  oauthclientNewForConfig : RestConfig → Except GoError OAuthV1Client
  routeclientNewForConfig : RestConfig → Except GoError RouteV1Client
  corev1NewForConfig : RestConfig → Except GoError CoreV1Client
  authorizetokenetcdNewREST :
    RESTOptionsGetter → saOAuthClientGetter → Except GoError AuthorizeTokenREST
  accesstokenetcdNewREST :
    RESTOptionsGetter → saOAuthClientGetter → Except GoError AccessTokenREST
  clientauthetcdNewREST :
    RESTOptionsGetter → saOAuthClientGetter → Except GoError ClientAuthorizationREST
  genericComplete : RecommendedConfig → GenericCompletedConfig × RecommendedConfig
  genericNew : GenericCompletedConfig → String → DelegationTarget → Except GoError GenericAPIServer
  InstallAPIGroup : GenericAPIServer → APIGroupInfo → Option GoError

/-- A returned `(map, error)` pair of `V1RESTStorage` and `newV1RESTStorage`. -/
abbrev StoragePair := Option MapRef × Option GoError

/-! ## The functions of the package -/

/-- Method `(*completedConfig).newV1RESTStorage`.  `len(s) > 0` is rendered as
`s.length > 0`; both hold exactly for a non-empty string. -/
def completedConfig.newV1RESTStorage (w : World) (c : completedConfig) (h : Heap) :
    Option (StoragePair × Heap × List Event) :=
  let opts := c.GenericConfig.RESTOptionsGetter
  match w.clientetcdNewREST opts with
  | .error err =>
    some ((none, some (fmtErrorf "error building REST storage: " err)), h,
      [.enterNewV1RESTStorage, .clientetcdNewREST opts (some err)])
  | .ok clientStorage =>
    let t1 : List Event := [.enterNewV1RESTStorage, .clientetcdNewREST opts none]
    match h.extra c.ExtraConfig with
    | none => none
    | some extra =>
      let saAccountGrantMethod :=
        if extra.ServiceAccountMethod.length > 0 then
          GrantHandlerType.mk extra.ServiceAccountMethod
        else GrantHandlerDeny
      match w.oauthclientNewForConfig c.GenericConfig.LoopbackClientConfig with
      | .error err =>
        some ((none, some err), h,
          t1 ++ [.oauthclientNewForConfig c.GenericConfig.LoopbackClientConfig (some err)])
      | .ok oauthClient =>
        let t2 := t1 ++ [.oauthclientNewForConfig c.GenericConfig.LoopbackClientConfig none]
        match w.routeclientNewForConfig c.kubeAPIServerClientConfig with
        | .error err =>
          some ((none, some err), h,
            t2 ++ [.routeclientNewForConfig c.kubeAPIServerClientConfig (some err)])
        | .ok routeClient =>
          let t3 := t2 ++ [.routeclientNewForConfig c.kubeAPIServerClientConfig none]
          match w.corev1NewForConfig c.kubeAPIServerClientConfig with
          | .error err =>
            some ((none, some err), h,
              t3 ++ [.corev1NewForConfig c.kubeAPIServerClientConfig (some err)])
          | .ok coreV1Client =>
            let t4 := t3 ++ [.corev1NewForConfig c.kubeAPIServerClientConfig none]
            let combinedOAuthClientGetter := NewServiceAccountOAuthClientGetter
              coreV1Client coreV1Client ⟨coreV1Client, ""⟩ routeClient ⟨oauthClient⟩
              saAccountGrantMethod
            match w.authorizetokenetcdNewREST opts combinedOAuthClientGetter with
            | .error err =>
              some ((none, some (fmtErrorf "error building REST storage: " err)), h,
                t4 ++ [.authorizetokenetcdNewREST opts combinedOAuthClientGetter (some err)])
            | .ok authorizeTokenStorage =>
              let t5 := t4 ++ [.authorizetokenetcdNewREST opts combinedOAuthClientGetter none]
              match w.accesstokenetcdNewREST opts combinedOAuthClientGetter with
              | .error err =>
                some ((none, some (fmtErrorf "error building REST storage: " err)), h,
                  t5 ++ [.accesstokenetcdNewREST opts combinedOAuthClientGetter (some err)])
              | .ok accessTokenStorage =>
                let t6 := t5 ++ [.accesstokenetcdNewREST opts combinedOAuthClientGetter none]
                match w.clientauthetcdNewREST opts combinedOAuthClientGetter with
                | .error err =>
                  some ((none, some (fmtErrorf "error building REST storage: " err)), h,
                    t6 ++ [.clientauthetcdNewREST opts combinedOAuthClientGetter (some err)])
                | .ok clientAuthorizationStorage =>
                  let t7 := t6 ++ [.clientauthetcdNewREST opts combinedOAuthClientGetter none]
                  let (v1Storage, h0) := h.newMap
                  let h1 := h0.mapAssign v1Storage "oAuthAuthorizeTokens"
                    (.authorizeToken authorizeTokenStorage)
                  let h2 := h1.mapAssign v1Storage "oAuthAccessTokens"
                    (.accessToken accessTokenStorage)
                  let h3 := h2.mapAssign v1Storage "oAuthClients" (.client clientStorage)
                  let h4 := h3.mapAssign v1Storage "oAuthClientAuthorizations"
                    (.clientAuthorization clientAuthorizationStorage)
                  some ((some v1Storage, none), h4, t7)

/-- Method `(*sync.Once).Do` on the once-guard of the `ExtraConfig` at address
`p`: `f` runs only while `done` is unset, and `done` is set when `f` has
returned. -/
def Once.Do (p : Nat) (f : Heap → Option (Heap × List Event)) (h : Heap) :
    Option (Heap × List Event) :=
  match h.extra p with
  | none => none
  | some extra =>
    if extra.makeV1Storage.done then some (h, [])
    else
      match f h with
      | none => none
      | some (h1, t) =>
        some (h1.setExtra p (fun e => ⟨e.ServiceAccountMethod, ⟨true⟩, e.v1Storage, e.v1StorageErr⟩), t)

/-- Method `(*completedConfig).V1RESTStorage`.  The receiver is passed by value:
the method writes only through `c.ExtraConfig`. -/
def completedConfig.V1RESTStorage (w : World) (c : completedConfig) (h : Heap) :
    Option (StoragePair × Heap × List Event) :=
  let closure : Heap → Option (Heap × List Event) := fun h0 =>
    match c.newV1RESTStorage w h0 with
    | none => none
    | some ((m, err), h1, t) =>
      some (h1.setExtra c.ExtraConfig
        (fun e => ⟨e.ServiceAccountMethod, e.makeV1Storage, m, err⟩), t)
  match Once.Do c.ExtraConfig closure h with
  | none => none
  | some (h2, t) =>
    match h2.extra c.ExtraConfig with
    | none => none
    | some extra => some ((extra.v1Storage, extra.v1StorageErr), h2, t)

/-- Method `(*OAuthAPIServerConfig).Complete` on the config at address `p`.
The generic `Complete` may change the generic config it is called on; the
changed config is written back before `ClientConfig` is read. -/
def OAuthAPIServerConfig.Complete (w : World) (p : Nat) (h : Heap) :
    Option (completedConfig × Heap) :=
  match h.configs[p]? with
  | none => none
  | some cfg =>
    let (completed, generic) := w.genericComplete cfg.GenericConfig
    let h1 : Heap := ⟨h.configs.set p ⟨generic, cfg.ExtraConfig⟩, h.maps⟩
    some (⟨completed, p, generic.ClientConfig⟩, h1)

/-- Method `completedConfig.New`. -/
def completedConfig.New (w : World) (c : completedConfig) (delegationTarget : DelegationTarget)
    (h : Heap) : Option ((Option OAuthAPIServer × Option GoError) × Heap × List Event) :=
  match w.genericNew c.GenericConfig "oauth.openshift.io-apiserver" delegationTarget with
  | .error err =>
    some ((none, some err), h,
      [.genericNew "oauth.openshift.io-apiserver" delegationTarget (some err)])
  | .ok genericServer =>
    let t0 : List Event := [.genericNew "oauth.openshift.io-apiserver" delegationTarget none]
    let s : OAuthAPIServer := ⟨genericServer⟩
    match c.V1RESTStorage w h with
    | none => none
    | some ((_, some err), h1, t) => some ((none, some err), h1, t0 ++ t)
    | some ((v1Storage, none), h1, t) =>
      let apiGroupInfo := NewDefaultAPIGroupInfo GroupName
      let apiGroupInfo : APIGroupInfo :=
        ⟨apiGroupInfo.GroupName,
          (SchemeGroupVersionVersion, v1Storage) ::
            apiGroupInfo.VersionedResourcesStorageMap.filter
              (fun kv => kv.1 != SchemeGroupVersionVersion)⟩
      match w.InstallAPIGroup s.GenericAPIServer apiGroupInfo with
      | some err =>
        some ((none, some err), h1,
          t0 ++ t ++ [.InstallAPIGroup s.GenericAPIServer apiGroupInfo (some err)])
      | none =>
        some ((some s, none), h1,
          t0 ++ t ++ [.InstallAPIGroup s.GenericAPIServer apiGroupInfo none])

/-- Successive `V1RESTStorage` calls, each through its own completed config and
in its own world; the results and events of the calls, in order, and the final
heap. -/
def runV1RESTStorage : List (World × completedConfig) → Heap →
    Option (List (StoragePair × List Event) × Heap)
  | [], h => some ([], h)
  | (w, c) :: rest, h =>
    match c.V1RESTStorage w h with
    | none => none
    | some (r, h1, t) =>
      match runV1RESTStorage rest h1 with
      | none => none
      | some (rs, h2) => some ((r, t) :: rs, h2)

/-! ## Observations on events -/

/-- The sub-construction an event is a call of, if any. -/
def Event.step : Event → Option Step
  | .clientetcdNewREST _ _ => some .clientStorage
  | .oauthclientNewForConfig _ _ => some .oauthClient
  | .routeclientNewForConfig _ _ => some .routeClient
  | .corev1NewForConfig _ _ => some .coreClient
  | .authorizetokenetcdNewREST _ _ _ => some .authorizeTokenStorage
  | .accesstokenetcdNewREST _ _ _ => some .accessTokenStorage
  | .clientauthetcdNewREST _ _ _ => some .clientAuthorizationStorage
  | _ => none

/-- The error a call returned; `none` for a nil error and for the entry marker. -/
def Event.err : Event → Option GoError
  | .enterNewV1RESTStorage => none
  | .clientetcdNewREST _ err => err
  | .oauthclientNewForConfig _ err => err
  | .routeclientNewForConfig _ err => err
  | .corev1NewForConfig _ err => err
  | .authorizetokenetcdNewREST _ _ err => err
  | .accesstokenetcdNewREST _ _ err => err
  | .clientauthetcdNewREST _ _ err => err
  | .genericNew _ _ err => err
  | .InstallAPIGroup _ _ err => err

/-- The combined client getter a call was handed, if it takes one. -/
def Event.getter : Event → Option saOAuthClientGetter
  | .authorizetokenetcdNewREST _ g _ => some g
  | .accesstokenetcdNewREST _ g _ => some g
  | .clientauthetcdNewREST _ g _ => some g
  | _ => none

/-- Whether the event is a call of `InstallAPIGroup`. -/
def Event.isInstall : Event → Bool
  | .InstallAPIGroup _ _ _ => true
  | _ => false

/-- The error of a `(value, error)` return of a constructor: `none` for a nil
error. -/
def errOf {α : Type} : Except GoError α → Option GoError
  | .ok _ => none
  | .error err => some err

/-- The order in which `newV1RESTStorage` lists its sub-constructions. -/
def Step.order : List Step :=
  [.clientStorage, .oauthClient, .routeClient, .coreClient,
    .authorizeTokenStorage, .accessTokenStorage, .clientAuthorizationStorage]

/-- Whether the step is one of the four storage constructors. -/
def Step.isStorage : Step → Bool
  | .clientStorage => true
  | .authorizeTokenStorage => true
  | .accessTokenStorage => true
  | .clientAuthorizationStorage => true
  | _ => false

/-- The once-guard is unset and nothing is cached. -/
def ExtraConfig.neverConstructed (e : ExtraConfig) : Prop :=
  e.makeV1Storage.done = false ∧ e.v1Storage = none ∧ e.v1StorageErr = none

instance (e : ExtraConfig) : Decidable e.neverConstructed := by
  unfold ExtraConfig.neverConstructed
  exact inferInstance

/-! ## Sample inputs -/

/-- World in which every constructor succeeds, except the one for `failing`. -/
def World.sample (failing : Option Step) : World where
  clientetcdNewREST := fun _ =>
    if failing = some .clientStorage then .error ⟨"etcd down"⟩ else .ok ⟨1⟩
  oauthclientNewForConfig := fun _ =>
    if failing = some .oauthClient then .error ⟨"bad oauth config"⟩ else .ok ⟨2⟩
  routeclientNewForConfig := fun _ =>
    if failing = some .routeClient then .error ⟨"bad route config"⟩ else .ok ⟨3⟩
  corev1NewForConfig := fun _ =>
    if failing = some .coreClient then .error ⟨"bad core config"⟩ else .ok ⟨4⟩
  authorizetokenetcdNewREST := fun _ _ =>
    if failing = some .authorizeTokenStorage then .error ⟨"etcd down"⟩ else .ok ⟨5⟩
  accesstokenetcdNewREST := fun _ _ =>
    if failing = some .accessTokenStorage then .error ⟨"etcd down"⟩ else .ok ⟨6⟩
  clientauthetcdNewREST := fun _ _ =>
    if failing = some .clientAuthorizationStorage then .error ⟨"etcd down"⟩ else .ok ⟨7⟩
  genericComplete := fun r => (⟨r.RESTOptionsGetter, r.LoopbackClientConfig⟩, r)
  genericNew := fun _ _ _ => .ok ⟨8⟩
  InstallAPIGroup := fun _ _ => none

/-- Heap with one never-constructed config at address 0. -/
def sampleHeap (method : String) : Heap :=
  ⟨[⟨⟨⟨10⟩, ⟨11⟩, ⟨12⟩⟩, ⟨method, ⟨false⟩, none, none⟩⟩], []⟩

/-- Completed config of the config at address 0 of `sampleHeap`. -/
def sampleConfig : completedConfig := ⟨⟨⟨10⟩, ⟨11⟩⟩, 0, ⟨12⟩⟩

/-- The combined client getter built in `World.sample none` for a grant method. -/
def sampleGetter (method : GrantHandlerType) : saOAuthClientGetter :=
  ⟨⟨4⟩, ⟨4⟩, ⟨⟨4⟩, ""⟩, ⟨3⟩, ⟨⟨2⟩⟩, method⟩

/-- The storage map built in `World.sample none`. -/
def sampleMap : StorageMap :=
  ⟨[("oAuthClientAuthorizations", .clientAuthorization ⟨7⟩), ("oAuthClients", .client ⟨1⟩),
    ("oAuthAccessTokens", .accessToken ⟨6⟩), ("oAuthAuthorizeTokens", .authorizeToken ⟨5⟩)]⟩

/-- The heap `sampleHeap method` after a successful construction. -/
def sampleBuiltHeap (method : String) : Heap :=
  ⟨[⟨⟨⟨10⟩, ⟨11⟩, ⟨12⟩⟩, ⟨method, ⟨true⟩, some 0, none⟩⟩], [sampleMap]⟩

/-- The events of a successful construction through `sampleConfig`. -/
def sampleEvents (method : GrantHandlerType) : List Event :=
  [.enterNewV1RESTStorage, .clientetcdNewREST ⟨10⟩ none, .oauthclientNewForConfig ⟨11⟩ none,
    .routeclientNewForConfig ⟨12⟩ none, .corev1NewForConfig ⟨12⟩ none,
    .authorizetokenetcdNewREST ⟨10⟩ (sampleGetter method) none,
    .accesstokenetcdNewREST ⟨10⟩ (sampleGetter method) none,
    .clientauthetcdNewREST ⟨10⟩ (sampleGetter method) none]

/-! ## Memory lemmas -/

/-- Reading back the `ExtraConfig` just written. -/
theorem Heap.extra_setExtra (h : Heap) (p : Nat) (f : ExtraConfig → ExtraConfig) :
    (h.setExtra p f).extra p = (h.extra p).map f := by
  unfold Heap.setExtra Heap.extra
  cases hq : h.configs[p]? with
  | none => simp [hq]
  | some cfg =>
    have hlt : p < h.configs.length := by
      rcases List.getElem?_eq_some.mp hq with ⟨hlt, _⟩
      exact hlt
    simp [List.getElem?_set, hlt]

/-- A write to an `ExtraConfig` leaves the storage maps alone. -/
theorem Heap.maps_setExtra (h : Heap) (p : Nat) (f : ExtraConfig → ExtraConfig) :
    (h.setExtra p f).maps = h.maps := by
  unfold Heap.setExtra
  cases h.configs[p]? <;> rfl

/-- With a valid `ExtraConfig` pointer `newV1RESTStorage` returns, leaves the
configs alone, is entered once, and yields a map exactly when it yields no
error, an error exactly when a sub-construction it called failed. -/
theorem newV1RESTStorage_total (w : World) (c : completedConfig) (h : Heap) (e : ExtraConfig)
    (he : h.extra c.ExtraConfig = some e) :
    ∃ r h1 t, c.newV1RESTStorage w h = some (r, h1, t) ∧
      h1.configs = h.configs ∧
      t.count .enterNewV1RESTStorage = 1 ∧
      (r.1.isSome ↔ r.2 = none) ∧
      (r.2.isSome ↔ ∃ ev ∈ t, ev.step.isSome ∧ ev.err.isSome) := by
  unfold completedConfig.newV1RESTStorage
  simp only [he]
  repeat' split
  all_goals
    refine ⟨_, _, _, rfl, ?_, ?_, ?_, ?_⟩ <;>
      simp [Heap.newMap, Heap.mapAssign, Event.err, Event.step, List.count_cons]


/-- The `ExtraConfig` read depends on the configs only. -/
theorem Heap.extra_congr (h h1 : Heap) (p : Nat) (hc : h1.configs = h.configs) :
    h1.extra p = h.extra p := by
  unfold Heap.extra
  rw [hc]

/-- With the once-guard set, `V1RESTStorage` returns the cached fields and
changes nothing. -/
theorem V1RESTStorage_done (w : World) (c : completedConfig) (h : Heap) (e : ExtraConfig)
    (he : h.extra c.ExtraConfig = some e) (hd : e.makeV1Storage.done = true) :
    c.V1RESTStorage w h = some ((e.v1Storage, e.v1StorageErr), h, []) := by
  simp [completedConfig.V1RESTStorage, Once.Do, he, hd]

/-- With the once-guard unset, `V1RESTStorage` returns what `newV1RESTStorage`
returns, caches it and sets the guard. -/
theorem V1RESTStorage_first (w : World) (c : completedConfig) (h : Heap) (e : ExtraConfig)
    (he : h.extra c.ExtraConfig = some e) (hd : e.makeV1Storage.done = false)
    (r : StoragePair) (h1 : Heap) (t : List Event)
    (hrun : c.newV1RESTStorage w h = some (r, h1, t)) (hc : h1.configs = h.configs) :
    ∃ h2, c.V1RESTStorage w h = some (r, h2, t) ∧
      h2.extra c.ExtraConfig = some ⟨e.ServiceAccountMethod, ⟨true⟩, r.1, r.2⟩ ∧
      h2.maps = h1.maps := by
  have he1 : h1.extra c.ExtraConfig = some e := by rw [Heap.extra_congr h h1 _ hc, he]
  obtain ⟨m, err⟩ := r
  simp [completedConfig.V1RESTStorage, Once.Do, he, hd, hrun, Heap.extra_setExtra, he1,
    Heap.maps_setExtra]


/-- A `V1RESTStorage` call that returns had a valid `ExtraConfig` pointer. -/
theorem V1RESTStorage_valid (w : World) (c : completedConfig) (h : Heap)
    (x : StoragePair × Heap × List Event) (hx : c.V1RESTStorage w h = some x) :
    ∃ e, h.extra c.ExtraConfig = some e := by
  cases he : h.extra c.ExtraConfig with
  | none => simp [completedConfig.V1RESTStorage, Once.Do, he] at hx
  | some e => exact ⟨e, rfl⟩

/-- With a valid `ExtraConfig` pointer `V1RESTStorage` returns, and afterwards
the guard is set and the fields hold the returned pair. -/
theorem V1RESTStorage_total (w : World) (c : completedConfig) (h : Heap) (e : ExtraConfig)
    (he : h.extra c.ExtraConfig = some e) :
    ∃ r h1 t, c.V1RESTStorage w h = some (r, h1, t) ∧
      h1.extra c.ExtraConfig = some ⟨e.ServiceAccountMethod, ⟨true⟩, r.1, r.2⟩ := by
  cases hd : e.makeV1Storage.done with
  | true =>
    refine ⟨_, _, _, V1RESTStorage_done w c h e he hd, ?_⟩
    rw [he]
    obtain ⟨s, ⟨d⟩, m, err⟩ := e
    simp_all
  | false =>
    obtain ⟨r, h1, t, hrun, hc, _⟩ := newV1RESTStorage_total w c h e he
    obtain ⟨h2, hv, hx, _⟩ := V1RESTStorage_first w c h e he hd r h1 t hrun hc
    exact ⟨r, h2, t, hv, hx⟩

/-- With the once-guard set, a sequence of calls returns the cached pair each
time, runs nothing and leaves the heap as it is. -/
theorem runV1RESTStorage_done (calls : List (World × completedConfig)) (h : Heap) (p : Nat)
    (e : ExtraConfig) (hall : ∀ wc ∈ calls, wc.2.ExtraConfig = p)
    (he : h.extra p = some e) (hd : e.makeV1Storage.done = true) :
    runV1RESTStorage calls h =
      some (calls.map (fun _ => ((e.v1Storage, e.v1StorageErr), [])), h) := by
  induction calls with
  | nil => rfl
  | cons wc rest ih =>
    obtain ⟨w, c⟩ := wc
    have hp : c.ExtraConfig = p := hall (w, c) (List.mem_cons_self _ _)
    have hrest : ∀ wc ∈ rest, wc.2.ExtraConfig = p :=
      fun wc hwc => hall wc (List.mem_cons_of_mem _ hwc)
    have hv := V1RESTStorage_done w c h e (hp ▸ he) hd
    simp [runV1RESTStorage, hv, ih hrest]


/-- With the once-guard set, `New` leaves the heap as it is and does not enter
`newV1RESTStorage`. -/
theorem New_done (w : World) (c : completedConfig) (target : DelegationTarget) (h : Heap)
    (e : ExtraConfig) (he : h.extra c.ExtraConfig = some e)
    (hd : e.makeV1Storage.done = true) :
    ∃ res t, c.New w target h = some (res, h, t) ∧ Event.enterNewV1RESTStorage ∉ t := by
  have hv := V1RESTStorage_done w c h e he hd
  unfold completedConfig.New
  rw [hv]
  cases w.genericNew c.GenericConfig "oauth.openshift.io-apiserver" target with
  | error err => exact ⟨_, _, rfl, by simp⟩
  | ok gs =>
    cases hr : e.v1StorageErr with
    | some err => exact ⟨_, _, rfl, by simp⟩
    | none =>
      simp only []
      split
      · exact ⟨_, _, rfl, by simp⟩
      · exact ⟨_, _, rfl, by simp⟩

/-- C1: from a never-constructed `ExtraConfig`, in any sequence of one or more
successive `V1RESTStorage` calls on it, `newV1RESTStorage` is entered exactly
once, in the first call, and in no later call, whatever the worlds answer. -/
theorem V1RESTStorage_constructs_exactly_once (w : World) (c : completedConfig)
    (later : List (World × completedConfig)) (h : Heap) (e : ExtraConfig)
    (hlater : ∀ wc ∈ later, wc.2.ExtraConfig = c.ExtraConfig)
    (he : h.extra c.ExtraConfig = some e) (hz : e.neverConstructed) :
    ∃ r t rs h2, runV1RESTStorage ((w, c) :: later) h = some ((r, t) :: rs, h2) ∧
      rs.length = later.length ∧
      t.count .enterNewV1RESTStorage = 1 ∧
      ∀ x ∈ rs, Event.enterNewV1RESTStorage ∉ x.2 := by
  obtain ⟨r, h1, t, hrun, hc, hcount, _⟩ := newV1RESTStorage_total w c h e he
  obtain ⟨h2, hv, hx, _⟩ := V1RESTStorage_first w c h e he hz.1 r h1 t hrun hc
  have hrest : runV1RESTStorage later h2 = some (later.map (fun _ => (r, [])), h2) :=
    runV1RESTStorage_done later h2 c.ExtraConfig _ hlater hx rfl
  refine ⟨r, t, later.map (fun _ => (r, [])), h2, ?_, ?_, hcount, ?_⟩
  · simp only [runV1RESTStorage, hv, hrest]
  · simp
  · intro x hx
    simp only [List.mem_map] at hx
    obtain ⟨_, _, rfl⟩ := hx
    simp

theorem V1RESTStorage_constructs_exactly_once_witness :
    (∀ wc ∈ [(World.sample none, sampleConfig), (World.sample none, sampleConfig)],
        wc.2.ExtraConfig = sampleConfig.ExtraConfig) ∧
      (sampleHeap "prompt").extra sampleConfig.ExtraConfig = some ⟨"prompt", ⟨false⟩, none, none⟩ ∧
      ExtraConfig.neverConstructed ⟨"prompt", ⟨false⟩, none, none⟩ ∧
      ∃ r t rs h2,
        runV1RESTStorage ((World.sample (some .routeClient), sampleConfig) ::
          [(World.sample none, sampleConfig), (World.sample none, sampleConfig)])
          (sampleHeap "prompt") = some ((r, t) :: rs, h2) ∧
        rs.length = [(World.sample none, sampleConfig), (World.sample none, sampleConfig)].length ∧
        t.count .enterNewV1RESTStorage = 1 ∧
        ∀ x ∈ rs, Event.enterNewV1RESTStorage ∉ x.2 :=
  ⟨by simp, by decide, by decide,
    V1RESTStorage_constructs_exactly_once (World.sample (some .routeClient)) sampleConfig
      [(World.sample none, sampleConfig), (World.sample none, sampleConfig)]
      (sampleHeap "prompt") ⟨"prompt", ⟨false⟩, none, none⟩ (by simp) (by decide) (by decide)⟩


/-- C2: from a never-constructed `ExtraConfig`, every `V1RESTStorage` call of a
sequence on it, the first included, returns the pair that the one run of
`newV1RESTStorage` (in the first call's world, on the starting heap) produced;
if that run returned an error, every call returns a nil map and that error,
whatever the later worlds would answer. -/
theorem V1RESTStorage_returns_the_one_pair (w : World) (c : completedConfig)
    (later : List (World × completedConfig)) (h : Heap) (e : ExtraConfig)
    (hlater : ∀ wc ∈ later, wc.2.ExtraConfig = c.ExtraConfig)
    (he : h.extra c.ExtraConfig = some e) (hz : e.neverConstructed) :
    ∃ r h1 t, c.newV1RESTStorage w h = some (r, h1, t) ∧
      ∃ rs h2, runV1RESTStorage ((w, c) :: later) h = some (rs, h2) ∧
        rs.length = later.length + 1 ∧
        (∀ x ∈ rs, x.1 = r) ∧
        (∀ err, r.2 = some err → ∀ x ∈ rs, x.1 = (none, some err)) := by
  obtain ⟨r, h1, t, hrun, hc, _, hiff, _⟩ := newV1RESTStorage_total w c h e he
  obtain ⟨h2, hv, hx, _⟩ := V1RESTStorage_first w c h e he hz.1 r h1 t hrun hc
  have hrest : runV1RESTStorage later h2 = some (later.map (fun _ => (r, [])), h2) :=
    runV1RESTStorage_done later h2 c.ExtraConfig _ hlater hx rfl
  have hall : ∀ x ∈ (r, t) :: later.map (fun _ => (r, ([] : List Event))), x.1 = r := by
    intro x hx
    rcases List.mem_cons.mp hx with rfl | hx
    · rfl
    · simp only [List.mem_map] at hx
      obtain ⟨_, _, rfl⟩ := hx
      rfl
  refine ⟨r, h1, t, hrun, (r, t) :: later.map (fun _ => (r, [])), h2, ?_, ?_, hall, ?_⟩
  · simp only [runV1RESTStorage, hv, hrest]
  · simp
  · intro err herr x hx
    rw [hall x hx]
    obtain ⟨m, e2⟩ := r
    simp only at herr
    subst herr
    cases m with
    | none => rfl
    | some ref => simp at hiff

theorem V1RESTStorage_returns_the_one_pair_witness :
    (∀ wc ∈ [(World.sample none, sampleConfig)],
        wc.2.ExtraConfig = sampleConfig.ExtraConfig) ∧
      (sampleHeap "auto").extra sampleConfig.ExtraConfig = some ⟨"auto", ⟨false⟩, none, none⟩ ∧
      ExtraConfig.neverConstructed ⟨"auto", ⟨false⟩, none, none⟩ ∧
      ∃ r h1 t,
        sampleConfig.newV1RESTStorage (World.sample (some .clientStorage)) (sampleHeap "auto") =
          some (r, h1, t) ∧
        ∃ rs h2,
          runV1RESTStorage ((World.sample (some .clientStorage), sampleConfig) ::
            [(World.sample none, sampleConfig)]) (sampleHeap "auto") = some (rs, h2) ∧
          rs.length = [(World.sample none, sampleConfig)].length + 1 ∧
          (∀ x ∈ rs, x.1 = r) ∧
          (∀ err, r.2 = some err → ∀ x ∈ rs, x.1 = (none, some err)) :=
  ⟨by simp, by decide, by decide,
    V1RESTStorage_returns_the_one_pair (World.sample (some .clientStorage)) sampleConfig
      [(World.sample none, sampleConfig)] (sampleHeap "auto") ⟨"auto", ⟨false⟩, none, none⟩
      (by simp) (by decide) (by decide)⟩

/-- C8: once a `V1RESTStorage` call has completed on an `ExtraConfig`, the
once-guard is set and the returned pair is what its fields cache; every later
`V1RESTStorage` call on it, and every later `New` through it, leaves the whole
heap as it is (the `ExtraConfig` fields and every storage map with its entries)
and `V1RESTStorage` returns the cached map reference and error, running
nothing. -/
theorem V1RESTStorage_cache_is_read_only (w : World) (c : completedConfig) (h h1 : Heap)
    (r : StoragePair) (t : List Event) (later : List (World × completedConfig))
    (hfirst : c.V1RESTStorage w h = some (r, h1, t))
    (hlater : ∀ wc ∈ later, wc.2.ExtraConfig = c.ExtraConfig) :
    (∃ e1, h1.extra c.ExtraConfig = some e1 ∧ e1.makeV1Storage.done = true ∧
      e1.v1Storage = r.1 ∧ e1.v1StorageErr = r.2) ∧
    runV1RESTStorage later h1 = some (later.map (fun _ => (r, [])), h1) ∧
    ∀ wc ∈ later, ∀ target, ∃ res t2, wc.2.New wc.1 target h1 = some (res, h1, t2) := by
  obtain ⟨e, he⟩ := V1RESTStorage_valid w c h _ hfirst
  obtain ⟨r2, h2, t2, hv, hx⟩ := V1RESTStorage_total w c h e he
  rw [hv] at hfirst
  simp only [Option.some.injEq, Prod.mk.injEq] at hfirst
  obtain ⟨rfl, rfl, rfl⟩ := hfirst
  refine ⟨⟨_, hx, rfl, rfl, rfl⟩, ?_, ?_⟩
  · exact runV1RESTStorage_done later h2 c.ExtraConfig _ hlater hx rfl
  · intro wc hwc target
    have hp := hlater wc hwc
    obtain ⟨res, t3, hnew, _⟩ := New_done wc.1 wc.2 target h2 _ (hp ▸ hx) rfl
    exact ⟨res, t3, hnew⟩


/-- What `Complete` returns and what it leaves alone. -/
theorem Complete_spec (w : World) (p : Nat) (h h1 : Heap) (c : completedConfig)
    (hc : OAuthAPIServerConfig.Complete w p h = some (c, h1)) :
    c.ExtraConfig = p ∧ h1.extra p = h.extra p ∧ h1.maps = h.maps ∧
      ∃ e, h.extra p = some e := by
  unfold OAuthAPIServerConfig.Complete at hc
  cases hq : h.configs[p]? with
  | none => simp [hq] at hc
  | some cfg =>
    have hlt : p < h.configs.length := (List.getElem?_eq_some.mp hq).1
    simp only [hq, Option.some.injEq, Prod.mk.injEq] at hc
    obtain ⟨rfl, rfl⟩ := hc
    simp [Heap.extra, hq, List.getElem?_set, hlt]

/-- C10: `Complete` stores the address of the receiver's `ExtraConfig` and
leaves that `ExtraConfig` as it is, so two completed configs obtained from the
same `OAuthAPIServerConfig` point at one once-guard and one cache: after a
`V1RESTStorage` call through the first, a call through the second, or through
any copy holding the same pointer, returns the same pair without running
anything, and `New` through it does not enter `newV1RESTStorage`. -/
theorem Complete_shares_the_storage_cache (w1 w2 w3 : World) (p : Nat) (h h1 h2 : Heap)
    (c1 c2 : completedConfig)
    (hc1 : OAuthAPIServerConfig.Complete w1 p h = some (c1, h1))
    (hc2 : OAuthAPIServerConfig.Complete w2 p h1 = some (c2, h2)) :
    c1.ExtraConfig = p ∧ c2.ExtraConfig = p ∧ h2.extra p = h.extra p ∧
    ∃ r h3 t, c1.V1RESTStorage w3 h2 = some (r, h3, t) ∧
      ∀ (c : completedConfig) (w4 : World), c.ExtraConfig = c2.ExtraConfig →
        c.V1RESTStorage w4 h3 = some (r, h3, []) ∧
        ∀ target, ∃ res t4, c.New w4 target h3 = some (res, h3, t4) ∧
          Event.enterNewV1RESTStorage ∉ t4 := by
  obtain ⟨hp1, hx1, _, e, he⟩ := Complete_spec w1 p h h1 c1 hc1
  obtain ⟨hp2, hx2, _, _⟩ := Complete_spec w2 p h1 h2 c2 hc2
  have he2 : h2.extra c1.ExtraConfig = some e := by rw [hp1, hx2, hx1, he]
  obtain ⟨r, h3, t, hv, hx⟩ := V1RESTStorage_total w3 c1 h2 e he2
  refine ⟨hp1, hp2, by rw [hx2, hx1], r, h3, t, hv, ?_⟩
  intro c w4 hcp
  have hcp1 : c.ExtraConfig = c1.ExtraConfig := by rw [hcp, hp2, hp1]
  have hx3 := hcp1 ▸ hx
  refine ⟨V1RESTStorage_done w4 c h3 _ hx3 rfl, ?_⟩
  intro target
  exact New_done w4 c target h3 _ hx3 rfl


theorem Complete_shares_the_storage_cache_witness :
    OAuthAPIServerConfig.Complete (World.sample none) 0 (sampleHeap "") =
        some (sampleConfig, sampleHeap "") ∧
      OAuthAPIServerConfig.Complete (World.sample none) 0 (sampleHeap "") =
        some (sampleConfig, sampleHeap "") ∧
      (sampleConfig.ExtraConfig = 0 ∧ sampleConfig.ExtraConfig = 0 ∧
        (sampleHeap "").extra 0 = (sampleHeap "").extra 0 ∧
        ∃ r h3 t,
          sampleConfig.V1RESTStorage (World.sample (some .coreClient)) (sampleHeap "") =
            some (r, h3, t) ∧
          ∀ (c : completedConfig) (w4 : World), c.ExtraConfig = sampleConfig.ExtraConfig →
            c.V1RESTStorage w4 h3 = some (r, h3, []) ∧
            ∀ target, ∃ res t4, c.New w4 target h3 = some (res, h3, t4) ∧
              Event.enterNewV1RESTStorage ∉ t4) :=
  ⟨by decide, by decide,
    Complete_shares_the_storage_cache (World.sample none) (World.sample none)
      (World.sample (some .coreClient)) 0 (sampleHeap "") (sampleHeap "") (sampleHeap "")
      sampleConfig sampleConfig (by decide) (by decide)⟩

theorem V1RESTStorage_cache_is_read_only_witness :
    sampleConfig.V1RESTStorage (World.sample none) (sampleHeap "auto") =
        some ((some 0, none), sampleBuiltHeap "auto", sampleEvents GrantHandlerAuto) ∧
      (∀ wc ∈ [(World.sample (some .clientStorage), sampleConfig)],
        wc.2.ExtraConfig = sampleConfig.ExtraConfig) ∧
      ((∃ e1, (sampleBuiltHeap "auto").extra sampleConfig.ExtraConfig = some e1 ∧
          e1.makeV1Storage.done = true ∧
          e1.v1Storage = (some 0, (none : Option GoError)).1 ∧
          e1.v1StorageErr = (some 0, (none : Option GoError)).2) ∧
        runV1RESTStorage [(World.sample (some .clientStorage), sampleConfig)]
            (sampleBuiltHeap "auto") =
          some ([(World.sample (some .clientStorage), sampleConfig)].map
            (fun _ => ((some 0, none), [])), sampleBuiltHeap "auto") ∧
        ∀ wc ∈ [(World.sample (some .clientStorage), sampleConfig)], ∀ target,
          ∃ res t2, wc.2.New wc.1 target (sampleBuiltHeap "auto") =
            some (res, sampleBuiltHeap "auto", t2)) :=
  ⟨by decide, by simp,
    V1RESTStorage_cache_is_read_only (World.sample none) sampleConfig (sampleHeap "auto")
      (sampleBuiltHeap "auto") (some 0, none) (sampleEvents GrantHandlerAuto)
      [(World.sample (some .clientStorage), sampleConfig)] (by decide) (by simp)⟩


/-- A string has positive length exactly when it is not the empty string. -/
theorem length_pos_iff_ne_empty (s : String) : s.length > 0 ↔ s ≠ "" := by
  obtain ⟨d⟩ := s
  cases d with
  | nil => simp [String.length]
  | cons a d =>
    simp only [String.length, List.length_cons, gt_iff_lt, Nat.zero_lt_succ, ne_eq, true_iff]
    intro hcontra
    have := congrArg String.data hcontra
    simp at this

/-- When the client storage and the three clients are constructed, the run
hands to the authorize-token constructor the getter built from the three
clients and the grant method the source computes, records that constructor's
answer, and hands no other getter to any constructor. -/
theorem newV1RESTStorage_hands_getter (w : World) (c : completedConfig) (h : Heap)
    (e : ExtraConfig) (cs : ClientREST) (oc : OAuthV1Client) (rc : RouteV1Client)
    (cc : CoreV1Client) (he : h.extra c.ExtraConfig = some e)
    (hcs : w.clientetcdNewREST c.GenericConfig.RESTOptionsGetter = .ok cs)
    (hoc : w.oauthclientNewForConfig c.GenericConfig.LoopbackClientConfig = .ok oc)
    (hrc : w.routeclientNewForConfig c.kubeAPIServerClientConfig = .ok rc)
    (hcc : w.corev1NewForConfig c.kubeAPIServerClientConfig = .ok cc) :
    ∃ r h1 t, c.newV1RESTStorage w h = some (r, h1, t) ∧
      Event.authorizetokenetcdNewREST c.GenericConfig.RESTOptionsGetter
        (NewServiceAccountOAuthClientGetter cc cc ⟨cc, ""⟩ rc ⟨oc⟩ (if e.ServiceAccountMethod.length > 0
            then GrantHandlerType.mk e.ServiceAccountMethod else GrantHandlerDeny))
        (errOf (w.authorizetokenetcdNewREST c.GenericConfig.RESTOptionsGetter
          (NewServiceAccountOAuthClientGetter cc cc ⟨cc, ""⟩ rc ⟨oc⟩ (if e.ServiceAccountMethod.length > 0
            then GrantHandlerType.mk e.ServiceAccountMethod else GrantHandlerDeny)))) ∈ t ∧
      ∀ ev ∈ t, ∀ g, ev.getter = some g →
        g = NewServiceAccountOAuthClientGetter cc cc ⟨cc, ""⟩ rc ⟨oc⟩ (if e.ServiceAccountMethod.length > 0
            then GrantHandlerType.mk e.ServiceAccountMethod else GrantHandlerDeny) := by
  unfold completedConfig.newV1RESTStorage
  simp only [he, hcs, hoc, hrc, hcc]
  repeat' split
  all_goals
    refine ⟨_, _, _, rfl, ?_, ?_⟩ <;>
      simp_all [errOf, Event.getter]

/-- C4: whenever the client storage and the three clients are constructed,
`newV1RESTStorage` builds the combined client getter from those clients with a
default grant method that is `GrantHandlerDeny` when `ServiceAccountMethod` is
the empty string and the configured value itself when it is not empty, calls
the authorize-token constructor with that getter, and hands no other getter to
any constructor of the run. -/
theorem newV1RESTStorage_default_grant_method (w : World) (c : completedConfig) (h : Heap)
    (e : ExtraConfig) (cs : ClientREST) (oc : OAuthV1Client) (rc : RouteV1Client)
    (cc : CoreV1Client) (he : h.extra c.ExtraConfig = some e)
    (hcs : w.clientetcdNewREST c.GenericConfig.RESTOptionsGetter = .ok cs)
    (hoc : w.oauthclientNewForConfig c.GenericConfig.LoopbackClientConfig = .ok oc)
    (hrc : w.routeclientNewForConfig c.kubeAPIServerClientConfig = .ok rc)
    (hcc : w.corev1NewForConfig c.kubeAPIServerClientConfig = .ok cc) :
    ∃ r h1 t gm, c.newV1RESTStorage w h = some (r, h1, t) ∧
        (e.ServiceAccountMethod = "" → gm = GrantHandlerDeny) ∧
        (e.ServiceAccountMethod ≠ "" → gm = GrantHandlerType.mk e.ServiceAccountMethod) ∧
        Event.authorizetokenetcdNewREST c.GenericConfig.RESTOptionsGetter
          (NewServiceAccountOAuthClientGetter cc cc ⟨cc, ""⟩ rc ⟨oc⟩ gm)
          (errOf (w.authorizetokenetcdNewREST c.GenericConfig.RESTOptionsGetter
            (NewServiceAccountOAuthClientGetter cc cc ⟨cc, ""⟩ rc ⟨oc⟩ gm))) ∈ t ∧
        ∀ ev ∈ t, ∀ g, ev.getter = some g →
          g = NewServiceAccountOAuthClientGetter cc cc ⟨cc, ""⟩ rc ⟨oc⟩ gm := by
  obtain ⟨r, h1, t, hrun, hmem, hall⟩ :=
    newV1RESTStorage_hands_getter w c h e cs oc rc cc he hcs hoc hrc hcc
  refine ⟨r, h1, t, _, hrun, ?_, ?_, hmem, hall⟩
  · intro hempty
    rw [if_neg]
    rw [length_pos_iff_ne_empty]
    simp [hempty]
  · intro hne
    rw [if_pos ((length_pos_iff_ne_empty _).mpr hne)]

theorem newV1RESTStorage_default_grant_method_witness :
    (sampleHeap "prompt").extra sampleConfig.ExtraConfig = some ⟨"prompt", ⟨false⟩, none, none⟩ ∧
      (World.sample none).clientetcdNewREST sampleConfig.GenericConfig.RESTOptionsGetter =
        .ok ⟨1⟩ ∧
      (World.sample none).oauthclientNewForConfig
        sampleConfig.GenericConfig.LoopbackClientConfig = .ok ⟨2⟩ ∧
      (World.sample none).routeclientNewForConfig sampleConfig.kubeAPIServerClientConfig =
        .ok ⟨3⟩ ∧
      (World.sample none).corev1NewForConfig sampleConfig.kubeAPIServerClientConfig =
        .ok ⟨4⟩ ∧
      ∃ r h1 t gm, sampleConfig.newV1RESTStorage (World.sample none) (sampleHeap "prompt") = some (r, h1, t) ∧
          ("prompt" = "" → gm = GrantHandlerDeny) ∧
          ("prompt" ≠ "" → gm = GrantHandlerType.mk "prompt") ∧
          Event.authorizetokenetcdNewREST sampleConfig.GenericConfig.RESTOptionsGetter
            (NewServiceAccountOAuthClientGetter ⟨4⟩ ⟨4⟩ ⟨⟨4⟩, ""⟩ ⟨3⟩ ⟨⟨2⟩⟩ gm)
            (errOf ((World.sample none).authorizetokenetcdNewREST sampleConfig.GenericConfig.RESTOptionsGetter
              (NewServiceAccountOAuthClientGetter ⟨4⟩ ⟨4⟩ ⟨⟨4⟩, ""⟩ ⟨3⟩ ⟨⟨2⟩⟩ gm))) ∈ t ∧
          ∀ ev ∈ t, ∀ g, ev.getter = some g →
            g = NewServiceAccountOAuthClientGetter ⟨4⟩ ⟨4⟩ ⟨⟨4⟩, ""⟩ ⟨3⟩ ⟨⟨2⟩⟩ gm :=
  ⟨by decide, rfl, rfl, rfl, rfl,
    newV1RESTStorage_default_grant_method (World.sample none) sampleConfig (sampleHeap "prompt")
      ⟨"prompt", ⟨false⟩, none, none⟩ ⟨1⟩ ⟨2⟩ ⟨3⟩ ⟨4⟩ (by decide) rfl rfl rfl rfl⟩

/-- C5, as stated, fails: with `ServiceAccountMethod = "bogus"` and every
constructor succeeding, the three storage constructors are handed a getter
whose default grant method is `"bogus"`, none of Deny, Auto and Prompt. -/
theorem newV1RESTStorage_grant_method_not_among_three :
    (sampleConfig.newV1RESTStorage (World.sample none) (sampleHeap "bogus")).map
        (fun x => (x.2.2.filterMap Event.getter).map (fun g => g.grantMethod)) =
      some [⟨"bogus"⟩, ⟨"bogus"⟩, ⟨"bogus"⟩] ∧
    (⟨"bogus"⟩ : GrantHandlerType) ≠ GrantHandlerDeny ∧
    (⟨"bogus"⟩ : GrantHandlerType) ≠ GrantHandlerAuto ∧
    (⟨"bogus"⟩ : GrantHandlerType) ≠ GrantHandlerPrompt := by
  decide

/-- C5, amended: whenever the client storage and the three clients are
constructed, the default grant method of the getter that `newV1RESTStorage`
builds and hands on is Deny when `ServiceAccountMethod` is empty and otherwise
the configured string as it is; it is one of Deny, Auto and Prompt exactly when
`ServiceAccountMethod` is empty or is one of the strings "deny", "auto" and
"prompt". -/
theorem newV1RESTStorage_grant_method_among_three_iff (w : World) (c : completedConfig) (h : Heap)
    (e : ExtraConfig) (cs : ClientREST) (oc : OAuthV1Client) (rc : RouteV1Client)
    (cc : CoreV1Client) (he : h.extra c.ExtraConfig = some e)
    (hcs : w.clientetcdNewREST c.GenericConfig.RESTOptionsGetter = .ok cs)
    (hoc : w.oauthclientNewForConfig c.GenericConfig.LoopbackClientConfig = .ok oc)
    (hrc : w.routeclientNewForConfig c.kubeAPIServerClientConfig = .ok rc)
    (hcc : w.corev1NewForConfig c.kubeAPIServerClientConfig = .ok cc) :
    ∃ r h1 t gm, c.newV1RESTStorage w h = some (r, h1, t) ∧
        gm = (if e.ServiceAccountMethod = "" then GrantHandlerDeny else GrantHandlerType.mk e.ServiceAccountMethod) ∧
        (gm ∈ [GrantHandlerDeny, GrantHandlerAuto, GrantHandlerPrompt] ↔
          e.ServiceAccountMethod ∈ ["", "deny", "auto", "prompt"]) ∧
        Event.authorizetokenetcdNewREST c.GenericConfig.RESTOptionsGetter
          (NewServiceAccountOAuthClientGetter cc cc ⟨cc, ""⟩ rc ⟨oc⟩ gm)
          (errOf (w.authorizetokenetcdNewREST c.GenericConfig.RESTOptionsGetter
            (NewServiceAccountOAuthClientGetter cc cc ⟨cc, ""⟩ rc ⟨oc⟩ gm))) ∈ t ∧
        ∀ ev ∈ t, ∀ g, ev.getter = some g →
          g = NewServiceAccountOAuthClientGetter cc cc ⟨cc, ""⟩ rc ⟨oc⟩ gm := by
  obtain ⟨r, h1, t, hrun, hmem, hall⟩ :=
    newV1RESTStorage_hands_getter w c h e cs oc rc cc he hcs hoc hrc hcc
  refine ⟨r, h1, t, _, hrun, ?_, ?_, hmem, hall⟩
  · by_cases hempty : e.ServiceAccountMethod = ""
    · rw [if_neg (by rw [length_pos_iff_ne_empty]; simp [hempty]), if_pos hempty]
    · rw [if_pos ((length_pos_iff_ne_empty _).mpr hempty), if_neg hempty]
  · by_cases hempty : e.ServiceAccountMethod = ""
    · rw [if_neg (by rw [length_pos_iff_ne_empty]; simp [hempty])]
      simp [hempty]
    · rw [if_pos ((length_pos_iff_ne_empty _).mpr hempty)]
      simp [GrantHandlerDeny, GrantHandlerAuto, GrantHandlerPrompt, hempty]

theorem newV1RESTStorage_grant_method_among_three_iff_witness :
    (sampleHeap "bogus").extra sampleConfig.ExtraConfig = some ⟨"bogus", ⟨false⟩, none, none⟩ ∧
      (World.sample none).clientetcdNewREST sampleConfig.GenericConfig.RESTOptionsGetter =
        .ok ⟨1⟩ ∧
      (World.sample none).oauthclientNewForConfig
        sampleConfig.GenericConfig.LoopbackClientConfig = .ok ⟨2⟩ ∧
      (World.sample none).routeclientNewForConfig sampleConfig.kubeAPIServerClientConfig =
        .ok ⟨3⟩ ∧
      (World.sample none).corev1NewForConfig sampleConfig.kubeAPIServerClientConfig =
        .ok ⟨4⟩ ∧
      ∃ r h1 t gm, sampleConfig.newV1RESTStorage (World.sample none) (sampleHeap "bogus") = some (r, h1, t) ∧
          gm = (if "bogus" = "" then GrantHandlerDeny else GrantHandlerType.mk "bogus") ∧
          (gm ∈ [GrantHandlerDeny, GrantHandlerAuto, GrantHandlerPrompt] ↔
            "bogus" ∈ ["", "deny", "auto", "prompt"]) ∧
          Event.authorizetokenetcdNewREST sampleConfig.GenericConfig.RESTOptionsGetter
            (NewServiceAccountOAuthClientGetter ⟨4⟩ ⟨4⟩ ⟨⟨4⟩, ""⟩ ⟨3⟩ ⟨⟨2⟩⟩ gm)
            (errOf ((World.sample none).authorizetokenetcdNewREST sampleConfig.GenericConfig.RESTOptionsGetter
              (NewServiceAccountOAuthClientGetter ⟨4⟩ ⟨4⟩ ⟨⟨4⟩, ""⟩ ⟨3⟩ ⟨⟨2⟩⟩ gm))) ∈ t ∧
          ∀ ev ∈ t, ∀ g, ev.getter = some g →
            g = NewServiceAccountOAuthClientGetter ⟨4⟩ ⟨4⟩ ⟨⟨4⟩, ""⟩ ⟨3⟩ ⟨⟨2⟩⟩ gm :=
  ⟨by decide, rfl, rfl, rfl, rfl,
    newV1RESTStorage_grant_method_among_three_iff (World.sample none) sampleConfig
      (sampleHeap "bogus") ⟨"bogus", ⟨false⟩, none, none⟩ ⟨1⟩ ⟨2⟩ ⟨3⟩ ⟨4⟩ (by decide)
      rfl rfl rfl rfl⟩

/-- C9: every run of `newV1RESTStorage` returns; its events after the entry
marker are calls of the sub-constructions in the fixed order with none left
out, all but the last returned no error, and either the last one failed, no
later step ran and the returned pair is a nil map with that failure (behind
the text "error building REST storage: " for a storage constructor, unchanged
for a client constructor), or all seven ran without error and no error is
returned. -/
theorem newV1RESTStorage_stops_at_first_failure (w : World) (c : completedConfig) (h : Heap)
    (e : ExtraConfig) (he : h.extra c.ExtraConfig = some e) :
    ∃ r h1 t evs, c.newV1RESTStorage w h = some (r, h1, t) ∧
      t = .enterNewV1RESTStorage :: evs ∧
      evs.map Event.step = (Step.order.take evs.length).map some ∧
      (∀ ev ∈ evs.dropLast, ev.err = none) ∧
      ((∃ ev s err, evs.getLast? = some ev ∧ ev.step = some s ∧ ev.err = some err ∧
          r = (none, some (if s.isStorage then fmtErrorf "error building REST storage: " err
            else err))) ∨
        (evs.length = 7 ∧ (∀ ev ∈ evs, ev.err = none) ∧ r.2 = none)) := by
  unfold completedConfig.newV1RESTStorage
  simp only [he]
  repeat' split
  all_goals
    refine ⟨_, _, _, _, rfl, rfl, ?_, ?_, ?_⟩ <;>
      simp [Event.step, Event.err, Step.order, Step.isStorage]


/-- Assignment through the reference of the map allocated last. -/
theorem Heap.mapAssign_last (cfgs : List OAuthAPIServerConfig) (ms : List StorageMap)
    (m : StorageMap) (k : String) (v : Storage) :
    (Heap.mk cfgs (ms ++ [m])).mapAssign ms.length k v = Heap.mk cfgs (ms ++ [m.set k v]) := by
  simp [Heap.mapAssign]

/-- The four assignments of `newV1RESTStorage` on an empty map. -/
theorem registrySet_entries (cs : ClientREST) (a : AuthorizeTokenREST) (b : AccessTokenREST)
    (d : ClientAuthorizationREST) :
    ((((StorageMap.empty.set "oAuthAuthorizeTokens" (.authorizeToken a)).set
      "oAuthAccessTokens" (.accessToken b)).set "oAuthClients" (.client cs)).set
      "oAuthClientAuthorizations" (.clientAuthorization d)) =
    ⟨[("oAuthClientAuthorizations", .clientAuthorization d), ("oAuthClients", .client cs),
      ("oAuthAccessTokens", .accessToken b), ("oAuthAuthorizeTokens", .authorizeToken a)]⟩ := by
  simp [StorageMap.set, StorageMap.empty, List.filter]

/-- The keys present in the map of the four registries. -/
theorem registrySet_keys (cs : ClientREST) (a : AuthorizeTokenREST) (b : AccessTokenREST)
    (d : ClientAuthorizationREST) (k : String) :
    ((StorageMap.mk [("oAuthClientAuthorizations", .clientAuthorization d),
      ("oAuthClients", .client cs), ("oAuthAccessTokens", .accessToken b),
      ("oAuthAuthorizeTokens", .authorizeToken a)]).get k).isSome ↔
    k ∈ ["oAuthAuthorizeTokens", "oAuthAccessTokens", "oAuthClients",
      "oAuthClientAuthorizations"] := by
  simp only [StorageMap.get, List.lookup]
  by_cases h1 : k = "oAuthClientAuthorizations"
  · subst h1; simp
  by_cases h2 : k = "oAuthClients"
  · subst h2; simp
  by_cases h3 : k = "oAuthAccessTokens"
  · subst h3; simp
  by_cases h4 : k = "oAuthAuthorizeTokens"
  · subst h4; simp
  have e1 : (k == "oAuthClientAuthorizations") = false := by simpa using h1
  have e2 : (k == "oAuthClients") = false := by simpa using h2
  have e3 : (k == "oAuthAccessTokens") = false := by simpa using h3
  have e4 : (k == "oAuthAuthorizeTokens") = false := by simpa using h4
  simp [e1, e2, e3, e4, h1, h2, h3, h4]


/-- C6: whenever `newV1RESTStorage` returns no error, it returns a reference to
a newly allocated map whose keys are exactly "oAuthAuthorizeTokens",
"oAuthAccessTokens", "oAuthClients" and "oAuthClientAuthorizations", each
holding the registry of its kind that the matching constructor returned when
called in this run. -/
theorem newV1RESTStorage_full_registry_set (w : World) (c : completedConfig) (h h1 : Heap)
    (m : Option MapRef) (t : List Event)
    (hrun : c.newV1RESTStorage w h = some ((m, none), h1, t)) :
    ∃ sm cs g a b d,
      m = some h.maps.length ∧ h1.maps = h.maps ++ [sm] ∧ h1.configs = h.configs ∧
      (∀ k, (sm.get k).isSome ↔ k ∈ ["oAuthAuthorizeTokens", "oAuthAccessTokens",
        "oAuthClients", "oAuthClientAuthorizations"]) ∧
      Event.clientetcdNewREST c.GenericConfig.RESTOptionsGetter none ∈ t ∧
      w.clientetcdNewREST c.GenericConfig.RESTOptionsGetter = .ok cs ∧
      sm.get "oAuthClients" = some (.client cs) ∧
      Event.authorizetokenetcdNewREST c.GenericConfig.RESTOptionsGetter g none ∈ t ∧
      w.authorizetokenetcdNewREST c.GenericConfig.RESTOptionsGetter g = .ok a ∧
      sm.get "oAuthAuthorizeTokens" = some (.authorizeToken a) ∧
      Event.accesstokenetcdNewREST c.GenericConfig.RESTOptionsGetter g none ∈ t ∧
      w.accesstokenetcdNewREST c.GenericConfig.RESTOptionsGetter g = .ok b ∧
      sm.get "oAuthAccessTokens" = some (.accessToken b) ∧
      Event.clientauthetcdNewREST c.GenericConfig.RESTOptionsGetter g none ∈ t ∧
      w.clientauthetcdNewREST c.GenericConfig.RESTOptionsGetter g = .ok d ∧
      sm.get "oAuthClientAuthorizations" = some (.clientAuthorization d) := by
  unfold completedConfig.newV1RESTStorage at hrun
  simp only [] at hrun
  repeat' split at hrun
  all_goals try (simp at hrun; done)
  all_goals
    simp only [Heap.newMap, Heap.mapAssign_last, registrySet_entries, Option.some.injEq,
      Prod.mk.injEq, and_true] at hrun
    obtain ⟨rfl, rfl, rfl⟩ := hrun
    refine ⟨_, _, _, _, _, _, rfl, rfl, rfl, registrySet_keys _ _ _ _, ?_, ‹_›, ?_, ?_, ‹_›, ?_,
      ?_, ‹_›, ?_, ?_, ‹_›, ?_⟩
    all_goals simp [StorageMap.get, List.lookup, *]


/-- When the generic server was built and `V1RESTStorage` returns an error,
`New` returns that error and a nil server, adding no `InstallAPIGroup` call. -/
theorem New_storage_error (w : World) (c : completedConfig) (target : DelegationTarget)
    (h h1 : Heap) (gs : GenericAPIServer) (m : Option MapRef) (err : GoError) (t : List Event)
    (hgen : w.genericNew c.GenericConfig "oauth.openshift.io-apiserver" target = .ok gs)
    (hv : c.V1RESTStorage w h = some ((m, some err), h1, t))
    (ht : ∀ ev ∈ t, ev.isInstall = false) :
    ∃ t2, c.New w target h = some ((none, some err), h1, t2) ∧
      ∀ ev ∈ t2, ev.isInstall = false := by
  unfold completedConfig.New
  rw [hgen]
  simp only [hv]
  refine ⟨_, rfl, ?_⟩
  intro ev hev
  rcases List.mem_append.mp hev with hev | hev
  · simp only [List.mem_singleton] at hev
    subst hev
    rfl
  · exact ht ev hev

/-- Function `newV1RESTStorage` never calls `InstallAPIGroup`. -/
theorem newV1RESTStorage_no_install (w : World) (c : completedConfig) (h h1 : Heap)
    (r : StoragePair) (t : List Event) (hrun : c.newV1RESTStorage w h = some (r, h1, t)) :
    ∀ ev ∈ t, ev.isInstall = false := by
  unfold completedConfig.newV1RESTStorage at hrun
  simp only [] at hrun
  repeat' split at hrun
  all_goals try (simp at hrun; done)
  all_goals
    simp only [Option.some.injEq, Prod.mk.injEq] at hrun
    obtain ⟨-, -, rfl⟩ := hrun
    simp [Event.isInstall]

/-- Method `V1RESTStorage` never calls `InstallAPIGroup`. -/
theorem V1RESTStorage_no_install (w : World) (c : completedConfig) (h h1 : Heap)
    (r : StoragePair) (t : List Event) (hv : c.V1RESTStorage w h = some (r, h1, t)) :
    ∀ ev ∈ t, ev.isInstall = false := by
  obtain ⟨e, he⟩ := V1RESTStorage_valid w c h _ hv
  cases hd : e.makeV1Storage.done with
  | true =>
    rw [V1RESTStorage_done w c h e he hd] at hv
    simp only [Option.some.injEq, Prod.mk.injEq] at hv
    obtain ⟨-, -, rfl⟩ := hv
    simp
  | false =>
    obtain ⟨r2, h2, t2, hrun, hc, _⟩ := newV1RESTStorage_total w c h e he
    obtain ⟨h3, hv3, _⟩ := V1RESTStorage_first w c h e he hd r2 h2 t2 hrun hc
    rw [hv3] at hv
    simp only [Option.some.injEq, Prod.mk.injEq] at hv
    obtain ⟨-, -, rfl⟩ := hv
    exact newV1RESTStorage_no_install w c h h2 r2 t2 hrun


/-- With a valid `ExtraConfig` pointer, `newV1RESTStorage` returns an error
exactly when, in its world, the client-storage constructor or one of the three
client constructors answers with an error on the arguments the source passes,
or the three clients are built and one of the three storage constructors
answers with an error on the getter built from them. -/
theorem newV1RESTStorage_error_iff (w : World) (c : completedConfig) (h : Heap)
    (e : ExtraConfig) (he : h.extra c.ExtraConfig = some e) :
    ∃ r h1 t, c.newV1RESTStorage w h = some (r, h1, t) ∧
      (r.2.isSome ↔
        ((errOf (w.clientetcdNewREST c.GenericConfig.RESTOptionsGetter)).isSome ∨
          (errOf (w.oauthclientNewForConfig c.GenericConfig.LoopbackClientConfig)).isSome ∨
          (errOf (w.routeclientNewForConfig c.kubeAPIServerClientConfig)).isSome ∨
          (errOf (w.corev1NewForConfig c.kubeAPIServerClientConfig)).isSome ∨
          ∃ oc rc cc,
            w.oauthclientNewForConfig c.GenericConfig.LoopbackClientConfig = .ok oc ∧
            w.routeclientNewForConfig c.kubeAPIServerClientConfig = .ok rc ∧
            w.corev1NewForConfig c.kubeAPIServerClientConfig = .ok cc ∧
            ((errOf (w.authorizetokenetcdNewREST c.GenericConfig.RESTOptionsGetter
              (NewServiceAccountOAuthClientGetter cc cc ⟨cc, ""⟩ rc ⟨oc⟩
                (if e.ServiceAccountMethod.length > 0 then GrantHandlerType.mk e.ServiceAccountMethod else GrantHandlerDeny)))).isSome ∨
            (errOf (w.accesstokenetcdNewREST c.GenericConfig.RESTOptionsGetter
              (NewServiceAccountOAuthClientGetter cc cc ⟨cc, ""⟩ rc ⟨oc⟩
                (if e.ServiceAccountMethod.length > 0 then GrantHandlerType.mk e.ServiceAccountMethod else GrantHandlerDeny)))).isSome ∨
            (errOf (w.clientauthetcdNewREST c.GenericConfig.RESTOptionsGetter
              (NewServiceAccountOAuthClientGetter cc cc ⟨cc, ""⟩ rc ⟨oc⟩
                (if e.ServiceAccountMethod.length > 0 then GrantHandlerType.mk e.ServiceAccountMethod else GrantHandlerDeny)))).isSome))) := by
  unfold completedConfig.newV1RESTStorage
  simp only [he]
  repeat' split
  all_goals
    refine ⟨_, _, _, rfl, ?_⟩
    simp_all [errOf]

/-- C7: from a never-constructed `ExtraConfig`, every `V1RESTStorage` call of a
sequence on it returns a non-nil map exactly when it returns a nil error; it
returns an error exactly when one of the sub-constructions called in the one
construction run returned an error, and exactly when, in the world of the first
call, one of the seven constructors answers with an error on the arguments the
source passes it (the storage constructors that take the getter, on the getter
built from the three clients); and whenever the generic server was built and
`V1RESTStorage` returns an error, `New` returns a nil server with that same
error and never calls `InstallAPIGroup`. -/
theorem V1RESTStorage_result_or_error (w : World) (c : completedConfig)
    (later : List (World × completedConfig)) (h : Heap) (e : ExtraConfig)
    (hlater : ∀ wc ∈ later, wc.2.ExtraConfig = c.ExtraConfig)
    (he : h.extra c.ExtraConfig = some e) (hz : e.neverConstructed) :
    ∃ r t rs h2, runV1RESTStorage ((w, c) :: later) h = some ((r, t) :: rs, h2) ∧
        rs.length = later.length ∧
        (∀ x ∈ (r, t) :: rs, (x.1.1.isSome ↔ x.1.2 = none) ∧
          (x.1.2.isSome ↔ ∃ ev ∈ t, ev.step.isSome ∧ ev.err.isSome) ∧
          (x.1.2.isSome ↔
            ((errOf (w.clientetcdNewREST c.GenericConfig.RESTOptionsGetter)).isSome ∨
              (errOf (w.oauthclientNewForConfig c.GenericConfig.LoopbackClientConfig)).isSome ∨
              (errOf (w.routeclientNewForConfig c.kubeAPIServerClientConfig)).isSome ∨
              (errOf (w.corev1NewForConfig c.kubeAPIServerClientConfig)).isSome ∨
              ∃ oc rc cc,
                w.oauthclientNewForConfig c.GenericConfig.LoopbackClientConfig = .ok oc ∧
                w.routeclientNewForConfig c.kubeAPIServerClientConfig = .ok rc ∧
                w.corev1NewForConfig c.kubeAPIServerClientConfig = .ok cc ∧
                ((errOf (w.authorizetokenetcdNewREST c.GenericConfig.RESTOptionsGetter
                  (NewServiceAccountOAuthClientGetter cc cc ⟨cc, ""⟩ rc ⟨oc⟩
                    (if e.ServiceAccountMethod.length > 0 then GrantHandlerType.mk e.ServiceAccountMethod else GrantHandlerDeny)))).isSome ∨
                (errOf (w.accesstokenetcdNewREST c.GenericConfig.RESTOptionsGetter
                  (NewServiceAccountOAuthClientGetter cc cc ⟨cc, ""⟩ rc ⟨oc⟩
                    (if e.ServiceAccountMethod.length > 0 then GrantHandlerType.mk e.ServiceAccountMethod else GrantHandlerDeny)))).isSome ∨
                (errOf (w.clientauthetcdNewREST c.GenericConfig.RESTOptionsGetter
                  (NewServiceAccountOAuthClientGetter cc cc ⟨cc, ""⟩ rc ⟨oc⟩
                    (if e.ServiceAccountMethod.length > 0 then GrantHandlerType.mk e.ServiceAccountMethod else GrantHandlerDeny)))).isSome)))) ∧
        (∀ (w2 : World) (c2 : completedConfig) (target : DelegationTarget) (h3 h4 : Heap)
          (gs : GenericAPIServer) (m : Option MapRef) (err : GoError) (t2 : List Event),
          w2.genericNew c2.GenericConfig "oauth.openshift.io-apiserver" target = .ok gs →
          c2.V1RESTStorage w2 h3 = some ((m, some err), h4, t2) →
          ∃ t3, c2.New w2 target h3 = some ((none, some err), h4, t3) ∧
            ∀ ev ∈ t3, ev.isInstall = false) := by
  obtain ⟨r, h1, t, hrun, hc, _, hiff, herr⟩ := newV1RESTStorage_total w c h e he
  obtain ⟨r0, h0, t0, hrun0, hworld⟩ := newV1RESTStorage_error_iff w c h e he
  have hsame : r0 = r := by
    rw [hrun] at hrun0
    simp only [Option.some.injEq, Prod.mk.injEq] at hrun0
    exact hrun0.1.symm
  subst hsame
  obtain ⟨h2, hv, hx, _⟩ := V1RESTStorage_first w c h e he hz.1 r0 h1 t hrun hc
  have hrest : runV1RESTStorage later h2 = some (later.map (fun _ => (r0, [])), h2) :=
    runV1RESTStorage_done later h2 c.ExtraConfig _ hlater hx rfl
  refine ⟨r0, t, later.map (fun _ => (r0, [])), h2, ?_, ?_, ?_, ?_⟩
  · simp only [runV1RESTStorage, hv, hrest]
  · simp
  · intro x hx
    have hxr : x.1 = r0 := by
      rcases List.mem_cons.mp hx with rfl | hx
      · rfl
      · simp only [List.mem_map] at hx
        obtain ⟨_, _, rfl⟩ := hx
        rfl
    rw [hxr]
    exact ⟨hiff, herr, hworld⟩
  · intro w2 c2 target h3 h4 gs m err t2 hgen hv2
    exact New_storage_error w2 c2 target h3 h4 gs m err t2 hgen hv2
      (V1RESTStorage_no_install w2 c2 h3 h4 _ t2 hv2)

theorem V1RESTStorage_result_or_error_witness :
    (∀ wc ∈ [(World.sample none, sampleConfig)],
        wc.2.ExtraConfig = sampleConfig.ExtraConfig) ∧
      (sampleHeap "").extra sampleConfig.ExtraConfig = some ⟨"", ⟨false⟩, none, none⟩ ∧
      ExtraConfig.neverConstructed ⟨"", ⟨false⟩, none, none⟩ ∧
      ∃ r t rs h2, runV1RESTStorage ((World.sample (some .accessTokenStorage), sampleConfig) ::
                  [(World.sample none, sampleConfig)]) (sampleHeap "") = some ((r, t) :: rs, h2) ∧
          rs.length = [(World.sample none, sampleConfig)].length ∧
          (∀ x ∈ (r, t) :: rs, (x.1.1.isSome ↔ x.1.2 = none) ∧
            (x.1.2.isSome ↔ ∃ ev ∈ t, ev.step.isSome ∧ ev.err.isSome) ∧
            (x.1.2.isSome ↔
              ((errOf ((World.sample (some .accessTokenStorage)).clientetcdNewREST sampleConfig.GenericConfig.RESTOptionsGetter)).isSome ∨
                (errOf ((World.sample (some .accessTokenStorage)).oauthclientNewForConfig sampleConfig.GenericConfig.LoopbackClientConfig)).isSome ∨
                (errOf ((World.sample (some .accessTokenStorage)).routeclientNewForConfig sampleConfig.kubeAPIServerClientConfig)).isSome ∨
                (errOf ((World.sample (some .accessTokenStorage)).corev1NewForConfig sampleConfig.kubeAPIServerClientConfig)).isSome ∨
                ∃ oc rc cc,
                  (World.sample (some .accessTokenStorage)).oauthclientNewForConfig sampleConfig.GenericConfig.LoopbackClientConfig = .ok oc ∧
                  (World.sample (some .accessTokenStorage)).routeclientNewForConfig sampleConfig.kubeAPIServerClientConfig = .ok rc ∧
                  (World.sample (some .accessTokenStorage)).corev1NewForConfig sampleConfig.kubeAPIServerClientConfig = .ok cc ∧
                  ((errOf ((World.sample (some .accessTokenStorage)).authorizetokenetcdNewREST sampleConfig.GenericConfig.RESTOptionsGetter
                    (NewServiceAccountOAuthClientGetter cc cc ⟨cc, ""⟩ rc ⟨oc⟩
                      (if "".length > 0 then GrantHandlerType.mk "" else GrantHandlerDeny)))).isSome ∨
                  (errOf ((World.sample (some .accessTokenStorage)).accesstokenetcdNewREST sampleConfig.GenericConfig.RESTOptionsGetter
                    (NewServiceAccountOAuthClientGetter cc cc ⟨cc, ""⟩ rc ⟨oc⟩
                      (if "".length > 0 then GrantHandlerType.mk "" else GrantHandlerDeny)))).isSome ∨
                  (errOf ((World.sample (some .accessTokenStorage)).clientauthetcdNewREST sampleConfig.GenericConfig.RESTOptionsGetter
                    (NewServiceAccountOAuthClientGetter cc cc ⟨cc, ""⟩ rc ⟨oc⟩
                      (if "".length > 0 then GrantHandlerType.mk "" else GrantHandlerDeny)))).isSome)))) ∧
          (∀ (w2 : World) (c2 : completedConfig) (target : DelegationTarget) (h3 h4 : Heap)
            (gs : GenericAPIServer) (m : Option MapRef) (err : GoError) (t2 : List Event),
            w2.genericNew c2.GenericConfig "oauth.openshift.io-apiserver" target = .ok gs →
            c2.V1RESTStorage w2 h3 = some ((m, some err), h4, t2) →
            ∃ t3, c2.New w2 target h3 = some ((none, some err), h4, t3) ∧
              ∀ ev ∈ t3, ev.isInstall = false) :=
  ⟨by simp, by decide, by decide,
    V1RESTStorage_result_or_error (World.sample (some .accessTokenStorage)) sampleConfig
      [(World.sample none, sampleConfig)] (sampleHeap "") ⟨"", ⟨false⟩, none, none⟩
      (by simp) (by decide) (by decide)⟩

theorem newV1RESTStorage_full_registry_set_witness :
    sampleConfig.newV1RESTStorage (World.sample none) (sampleHeap "") =
        some ((some 0, none), ⟨(sampleHeap "").configs, [sampleMap]⟩,
          sampleEvents GrantHandlerDeny) ∧
      ∃ sm cs g a b d,
        some 0 = some (sampleHeap "").maps.length ∧
        (Heap.mk (sampleHeap "").configs [sampleMap]).maps = (sampleHeap "").maps ++ [sm] ∧
        (Heap.mk (sampleHeap "").configs [sampleMap]).configs = (sampleHeap "").configs ∧
        (∀ k, (sm.get k).isSome ↔ k ∈ ["oAuthAuthorizeTokens", "oAuthAccessTokens",
          "oAuthClients", "oAuthClientAuthorizations"]) ∧
        Event.clientetcdNewREST sampleConfig.GenericConfig.RESTOptionsGetter none ∈
          sampleEvents GrantHandlerDeny ∧
        (World.sample none).clientetcdNewREST sampleConfig.GenericConfig.RESTOptionsGetter =
          .ok cs ∧
        sm.get "oAuthClients" = some (.client cs) ∧
        Event.authorizetokenetcdNewREST sampleConfig.GenericConfig.RESTOptionsGetter g none ∈
          sampleEvents GrantHandlerDeny ∧
        (World.sample none).authorizetokenetcdNewREST
          sampleConfig.GenericConfig.RESTOptionsGetter g = .ok a ∧
        sm.get "oAuthAuthorizeTokens" = some (.authorizeToken a) ∧
        Event.accesstokenetcdNewREST sampleConfig.GenericConfig.RESTOptionsGetter g none ∈
          sampleEvents GrantHandlerDeny ∧
        (World.sample none).accesstokenetcdNewREST
          sampleConfig.GenericConfig.RESTOptionsGetter g = .ok b ∧
        sm.get "oAuthAccessTokens" = some (.accessToken b) ∧
        Event.clientauthetcdNewREST sampleConfig.GenericConfig.RESTOptionsGetter g none ∈
          sampleEvents GrantHandlerDeny ∧
        (World.sample none).clientauthetcdNewREST
          sampleConfig.GenericConfig.RESTOptionsGetter g = .ok d ∧
        sm.get "oAuthClientAuthorizations" = some (.clientAuthorization d) :=
  ⟨by decide,
    newV1RESTStorage_full_registry_set (World.sample none) sampleConfig (sampleHeap "")
      ⟨(sampleHeap "").configs, [sampleMap]⟩ (some 0) (sampleEvents GrantHandlerDeny)
      (by decide)⟩

theorem newV1RESTStorage_stops_at_first_failure_witness :
    (sampleHeap "auto").extra sampleConfig.ExtraConfig = some ⟨"auto", ⟨false⟩, none, none⟩ ∧
      ∃ r h1 t evs,
        sampleConfig.newV1RESTStorage (World.sample (some .routeClient)) (sampleHeap "auto") =
          some (r, h1, t) ∧
        t = .enterNewV1RESTStorage :: evs ∧
        evs.map Event.step = (Step.order.take evs.length).map some ∧
        (∀ ev ∈ evs.dropLast, ev.err = none) ∧
        ((∃ ev s err, evs.getLast? = some ev ∧ ev.step = some s ∧ ev.err = some err ∧
            r = (none, some (if s.isStorage then
              fmtErrorf "error building REST storage: " err else err))) ∨
          (evs.length = 7 ∧ (∀ ev ∈ evs, ev.err = none) ∧ r.2 = none)) :=
  ⟨by decide,
    newV1RESTStorage_stops_at_first_failure (World.sample (some .routeClient)) sampleConfig
      (sampleHeap "auto") ⟨"auto", ⟨false⟩, none, none⟩ (by decide)⟩

end apiserver
